import Mathlib

/-!
Shallow embedding of `src/reservations_report.py` (Azure reservations analysis).

Modelling conventions:
* Python values that may populate a usage-record field are modelled by `FVal`
  (absent key, `None`, `str`, `bool`, or a numeric value).  Python's `int` and
  `float` are both modelled by `ℚ`; arithmetic is modelled exactly.
* `dict.get(key, default)` is `fget`; `dict.get(key)` is `fgetN`.
* Operations that can raise an uncaught Python exception (`TypeError` on
  string operations applied to non-strings, `ValueError` from `float(...)`,
  ...) are modelled in `Except Unit`; a `try/except` block in the source is
  modelled by matching on the `Except` result.
* `additionalInfo` holds a raw string that the source feeds to `json.loads`
  (a standard-library collaborator).  We model the outcome of that parse:
  `.absent` (missing or falsy raw value), `.invalid` (truthy raw value on
  which `json.loads` raises), or `.obj kvs` (parse produced an object with
  the given key/value pairs; non-object JSON payloads are outside the scope
  of the analysed claims).
* Python dicts keyed by strings (or by arbitrary values) are modelled as
  insertion-ordered association lists; Python sets as insertion-ordered
  duplicate-free lists.
-/

deriving instance DecidableEq for Except

/-- A Python value found in a usage-record field. -/
inductive FVal where
  | vAbsent : FVal
  | vNull : FVal
  | vStr (s : String) : FVal
  | vBool (b : Bool) : FVal
  | vNum (q : ℚ) : FVal
deriving DecidableEq, Repr

/-- Python truthiness of a field value (`vAbsent` only arises as the image of
a missing key fetched with no default, i.e. as `None`). -/
def truthy : FVal → Bool
  | .vAbsent => false
  | .vNull => false
  | .vStr s => s ≠ ""
  | .vBool b => b
  | .vNum q => q ≠ 0

/-- `props.get(key, default)`: the stored value, or `default` when the key is
absent. -/
def fget (v default_ : FVal) : FVal :=
  match v with
  | .vAbsent => default_
  | x => x

/-- `props.get(key)`: absent keys read as `None`. -/
def fgetN (v : FVal) : FVal := fget v .vNull

/-- Python `x or y`. -/
def pyOr (v w : FVal) : FVal := if truthy v then v else w

/-- A string-requiring operation (`sub in s`, `s.split`, `s.strip`, regex
search target, ...): raises `TypeError` on non-strings. -/
def asStr : FVal → Except Unit String
  | .vStr s => .ok s
  | _ => .error ()

/-- Digit run to a natural number. -/
def digitsToNat (cs : List Char) : Nat :=
  cs.foldl (fun acc c => acc * 10 + (c.toNat - '0'.toNat)) 0

/-- `s.split(sep)` for a one-character separator (structural, so that proofs
can evaluate it). -/
def splitOnChar (sep : Char) (cs : List Char) : List (List Char) :=
  cs.foldr
    (fun c acc =>
      match acc with
      | [] => [[c]]
      | g :: gs => if c = sep then [] :: g :: gs else (c :: g) :: gs)
    [[]]

/-- Python `str.strip()` (whitespace from both ends). -/
def trimChars (cs : List Char) : List Char :=
  ((cs.dropWhile Char.isWhitespace).reverse.dropWhile Char.isWhitespace).reverse

/-- `s.replace("Z", "+00:00")` (the only `str.replace` the source performs). -/
def replaceZChars (cs : List Char) : List Char :=
  cs.foldr
    (fun c acc =>
      if c = 'Z' then '+' :: '0' :: '0' :: ':' :: '0' :: '0' :: acc else c :: acc)
    []

/-- Python `float(str)` on a stripped decimal literal (optional sign, digits
with an optional point, optional exponent).  `inf`/`nan` literals and digit
underscores are not modelled; the analysed claims never exercise them. -/
def strToFloat (s0 : String) : Option ℚ :=
  let cs0 := trimChars s0.toList
  let sign : ℚ := match cs0 with | '-' :: _ => -1 | _ => 1
  let cs := match cs0 with | '+' :: r => r | '-' :: r => r | r => r
  let ip := cs.takeWhile Char.isDigit
  let cs1 := cs.drop ip.length
  let fp := match cs1 with | '.' :: r => r.takeWhile Char.isDigit | _ => []
  let cs2 := match cs1 with | '.' :: r => r.drop fp.length | _ => cs1
  if ip.isEmpty && fp.isEmpty then none
  else
    let mant : ℚ := (digitsToNat ip : ℚ) + (digitsToNat fp : ℚ) / ((10 : ℚ) ^ fp.length)
    match cs2 with
    | [] => some (sign * mant)
    | e :: r =>
      if e = 'e' ∨ e = 'E' then
        let esign : ℤ := match r with | '-' :: _ => -1 | _ => 1
        let r1 := match r with | '+' :: r2 => r2 | '-' :: r2 => r2 | r2 => r2
        let ed := r1.takeWhile Char.isDigit
        if ed.isEmpty ∨ ¬ (r1.drop ed.length).isEmpty then none
        else some (sign * mant * (10 : ℚ) ^ (esign * (digitsToNat ed : ℤ)))
      else none

/-- Python `float(x)` on an arbitrary field value: numbers pass through,
bools coerce to 0/1 (`bool` is a subclass of `int`), strings parse as float
literals, everything else raises `TypeError`. -/
def pyFloat (v : FVal) : Except Unit ℚ :=
  match v with
  | .vNum q => .ok q
  | .vBool b => .ok (if b then 1 else 0)
  | .vStr s =>
    match strToFloat s with
    | some q => .ok q
    | none => .error ()
  | _ => .error ()

/-- Python `acc + x` where `acc` is numeric: raises `TypeError` unless `x` is
numeric (or bool). -/
def pyAdd (a : ℚ) (v : FVal) : Except Unit ℚ :=
  match v with
  | .vNum q => .ok (a + q)
  | .vBool b => .ok (a + if b then 1 else 0)
  | _ => .error ()

/-- Substring containment on character lists (Python `sub in s` for strings). -/
def listContainsSub : List Char → List Char → Bool
  | _, [] => true
  | [], _ :: _ => false
  | c :: rest, p :: ps => (p :: ps).isPrefixOf (c :: rest) || listContainsSub rest (p :: ps)

/-- Python `sub in s` for strings. -/
def strContains (s sub : String) : Bool := listContainsSub s.toList sub.toList


/-- Outcome of `json.loads` on the raw `additionalInfo` string. -/
inductive AddInfo where
  | absent : AddInfo
  | invalid : AddInfo
  | obj (kvs : List (String × FVal)) : AddInfo
deriving DecidableEq, Repr

/-- The `properties` dict of one usage record (the source reads records only
through `record.get('properties', {})`, so a record is identified with its
properties; every key the source touches is a field, absent by default). -/
structure Props where
  instanceName : FVal := .vAbsent
  chargeType : FVal := .vAbsent
  additionalInfo : AddInfo := .absent
  quantity : FVal := .vAbsent
  costInBillingCurrency : FVal := .vAbsent
  effectivePrice : FVal := .vAbsent
  payGPrice : FVal := .vAbsent
  meterCategory : FVal := .vAbsent
  meterSubCategory : FVal := .vAbsent
  meterRegion : FVal := .vAbsent
  consumedService : FVal := .vAbsent
  unitOfMeasure : FVal := .vAbsent
  product : FVal := .vAbsent
  date : FVal := .vAbsent
  usageStart : FVal := .vAbsent
  usageEnd : FVal := .vAbsent
  servicePeriodStartDate : FVal := .vAbsent
  servicePeriodEndDate : FVal := .vAbsent
deriving DecidableEq, Repr

/-! ### Date helpers (`parse_iso_date`, `extract_record_date`,
`filter_usage_by_date`) -/

/-- A Python `datetime.date` (year ≥ 1; month/day validated at parse time). -/
structure PDate where
  y : Nat
  m : Nat
  d : Nat
deriving DecidableEq, Repr

/-- Key for comparing calendar dates (faithful on parser-validated dates). -/
def PDate.key (dt : PDate) : Nat := dt.y * 10000 + dt.m * 100 + dt.d

def dateLt (a b : PDate) : Bool := a.key < b.key

/-- Length of a month in the proleptic Gregorian calendar. -/
def monthLen (y m : Nat) : Nat :=
  if m = 2 then
    if y % 4 = 0 ∧ (y % 100 ≠ 0 ∨ y % 400 = 0) then 29 else 28
  else if m = 4 ∨ m = 6 ∨ m = 9 ∨ m = 11 then 30
  else 31

def allDigits (cs : List Char) : Bool := !cs.isEmpty && cs.all Char.isDigit

/-- `datetime.strptime(s, "%Y-%m-%d")`: three dash-separated digit groups
(`%Y` matches exactly 4 digits, `%m`/`%d` one or two), with calendar
validation.  Returns `none` where CPython raises `ValueError`. -/
def strptimeYmd (cs : List Char) : Option PDate :=
  match splitOnChar '-' cs with
  | [ys, ms, ds] =>
    if allDigits ys && ys.length = 4 && allDigits ms && ms.length ≤ 2
        && allDigits ds && ds.length ≤ 2 then
      let y := digitsToNat ys
      let m := digitsToNat ms
      let d := digitsToNat ds
      if 1 ≤ y ∧ 1 ≤ m ∧ m ≤ 12 ∧ 1 ≤ d ∧ d ≤ monthLen y m then
        some ⟨y, m, d⟩
      else none
    else none
  | _ => none

/-- Plausible `HH:MM[:SS[.frac]][±HH:MM]` time-of-day check, used by the
`fromisoformat` fallback below. -/
def validIsoTime (cs : List Char) : Bool :=
  match cs with
  | h1 :: h2 :: ':' :: m1 :: m2 :: rest =>
    h1.isDigit && h2.isDigit && m1.isDigit && m2.isDigit &&
    (digitsToNat [h1, h2] < 24) && (digitsToNat [m1, m2] < 60) &&
    (match rest with
     | [] => true
     | ':' :: s1 :: s2 :: rest2 =>
       s1.isDigit && s2.isDigit && digitsToNat [s1, s2] < 60 &&
       (match rest2 with
        | [] => true
        | '.' :: rest3 =>
          let fr := rest3.takeWhile Char.isDigit
          !fr.isEmpty && (rest3.drop fr.length).isEmpty
        | '+' :: o1 :: o2 :: ':' :: o3 :: o4 :: [] =>
          o1.isDigit && o2.isDigit && o3.isDigit && o4.isDigit
        | '-' :: o1 :: o2 :: ':' :: o3 :: o4 :: [] =>
          o1.isDigit && o2.isDigit && o3.isDigit && o4.isDigit
        | _ => false)
     | '+' :: o1 :: o2 :: ':' :: o3 :: o4 :: [] =>
       o1.isDigit && o2.isDigit && o3.isDigit && o4.isDigit
     | '-' :: o1 :: o2 :: ':' :: o3 :: o4 :: [] =>
       o1.isDigit && o2.isDigit && o3.isDigit && o4.isDigit
     | _ => false)
  | _ => false

/-- `datetime.fromisoformat(s).date()` for the common
`YYYY-MM-DD[{T,space}HH:MM[:SS[.frac]][offset]]` shapes (the only forms Azure
payloads use; the strict-prefix parse above already succeeds on all of them,
so this fallback only matters for totality). -/
def fromisoformatDate (cs : List Char) : Option PDate :=
  match strptimeYmd (cs.take 10) with
  | none => none
  | some d =>
    if cs.length = 10 then some d
    else
      match cs.drop 10 with
      | 'T' :: rest => if validIsoTime rest then some d else none
      | ' ' :: rest => if validIsoTime rest then some d else none
      | _ => none

/-- `parse_iso_date` with the raising primitives explicit: slicing/`replace`
on a non-string raise `TypeError`, failed parses raise `ValueError`; the two
`try/except` blocks catch everything, so the function returns rather than
propagating. -/
def parse_iso_date_exc (v : FVal) : Except Unit (Option PDate) :=
  if !truthy v then .ok none
  else
    -- try: datetime.strptime(s[:10], "%Y-%m-%d").date()
    match (do
        let s ← asStr v
        match strptimeYmd (s.toList.take 10) with
        | some d => .ok d
        | none => .error () : Except Unit PDate) with
    | .ok d => .ok (some d)
    | .error _ =>
      -- try: datetime.fromisoformat(s.replace("Z", "+00:00")).date()
      match (do
          let s ← asStr v
          match fromisoformatDate (replaceZChars s.toList) with
          | some d => .ok d
          | none => .error () : Except Unit PDate) with
      | .ok d => .ok (some d)
      | .error _ => .ok none

/-- `parse_iso_date`: the value the caller observes. -/
def parse_iso_date (v : FVal) : Option PDate :=
  match parse_iso_date_exc v with
  | .ok o => o
  | .error _ => none

/-- `extract_record_date`: first parseable candidate among `date`,
`usageStart`, `servicePeriodStartDate`, then `usageEnd`,
`servicePeriodEndDate` (a parsed date is always truthy in Python). -/
def extract_record_date (p : Props) : Option PDate :=
  match parse_iso_date (fgetN p.date) with
  | some d => some d
  | none =>
    match parse_iso_date (fgetN p.usageStart) with
    | some d => some d
    | none =>
      match parse_iso_date (fgetN p.servicePeriodStartDate) with
      | some d => some d
      | none =>
        match parse_iso_date (fgetN p.usageEnd) with
        | some d => some d
        | none => parse_iso_date (fgetN p.servicePeriodEndDate)

/-- `extract_record_date` at the exception-aware level: each candidate lookup
is a (never-raising) `parse_iso_date` call. -/
def extract_record_date_exc (p : Props) : Except Unit (Option PDate) := do
  let d1 ← parse_iso_date_exc (fgetN p.date)
  match d1 with
  | some d => .ok (some d)
  | none =>
    let d2 ← parse_iso_date_exc (fgetN p.usageStart)
    match d2 with
    | some d => .ok (some d)
    | none =>
      let d3 ← parse_iso_date_exc (fgetN p.servicePeriodStartDate)
      match d3 with
      | some d => .ok (some d)
      | none =>
        let d4 ← parse_iso_date_exc (fgetN p.usageEnd)
        match d4 with
        | some d => .ok (some d)
        | none => parse_iso_date_exc (fgetN p.servicePeriodEndDate)

/-- Keep/drop decision of `filter_usage_by_date`'s loop body for a record
with resolved date `rd` (`continue` when out of range). -/
def inWindow (from_date to_date : Option PDate) (rd : PDate) : Bool :=
  (match from_date with
   | some f => !dateLt rd f
   | none => true) &&
  (match to_date with
   | some t => !dateLt t rd
   | none => true)

/-- The `for rec in usage_data` loop of `filter_usage_by_date`. -/
def filterLoop (from_date to_date : Option PDate) : List Props → List Props × Nat
  | [] => ([], 0)
  | p :: rest =>
    let tail := filterLoop from_date to_date rest
    match extract_record_date p with
    | none => (tail.1, tail.2 + 1)
    | some rd =>
      if inWindow from_date to_date rd then (p :: tail.1, tail.2) else tail

/-- `filter_usage_by_date(usage_data, from_date, to_date)` →
`(filtered, skipped)`; with no bounds the input is returned unchanged. -/
def filter_usage_by_date (usage_data : List Props) (from_date to_date : Option PDate) :
    List Props × Nat :=
  if from_date.isNone && to_date.isNone then (usage_data, 0)
  else filterLoop from_date to_date usage_data

/-! ### Identifier / size extraction (`extract_reservation_id`,
`extract_vm_size`, `get_vm_core_count`) -/

/-- Scan for `re.search(r'reservationOrders/([^/]+)', s)`: the first position
where the literal `reservationOrders/` is followed by at least one non-`/`
character; the capture is the maximal non-`/` run. -/
def residScan : List Char → Option String
  | [] => none
  | c :: rest =>
    if "reservationOrders/".toList.isPrefixOf (c :: rest) then
      let after := (c :: rest).drop 18
      let run := after.takeWhile (fun ch => ch ≠ '/')
      if run.isEmpty then residScan rest else some (String.mk run)
    else residScan rest

/-- `extract_reservation_id(instance_name)` (callers guarantee a string). -/
def extract_reservation_id (instance_name : String) : Option String :=
  residScan instance_name.toList

def isWordChar (c : Char) : Bool := c.isAlpha || c.isDigit || c = '_'

/-- Scan for `re.search(r'Standard_[A-Za-z0-9_]+', s)`: the literal
`Standard_` followed by a maximal nonempty word-character run. -/
def vmSizeScan : List Char → Option String
  | [] => none
  | c :: rest =>
    if "Standard_".toList.isPrefixOf (c :: rest) then
      let after := (c :: rest).drop 9
      let run := after.takeWhile isWordChar
      if run.isEmpty then vmSizeScan rest else some ("Standard_" ++ String.mk run)
    else vmSizeScan rest

/-- `extract_vm_size(product_name)`: the matched size token or `"Unknown"`;
`re.search` on a non-string raises `TypeError`. -/
def extract_vm_size (product_name : FVal) : Except Unit String := do
  let s ← asStr product_name
  match vmSizeScan s.toList with
  | some t => .ok t
  | none => .ok "Unknown"

/-- Scan for `re.search(r'D(\d+)[a-z]*_v\d+', s)`, returning the captured
digit run after `D` as a number.  On a failed attempt the scan resumes one
character later, as `re.search` does. -/
def coreScan : List Char → Option Nat
  | [] => none
  | c :: rest =>
    if c = 'D' then
      let ds := rest.takeWhile Char.isDigit
      if ds.isEmpty then coreScan rest
      else
        let rest2 := (rest.drop ds.length).dropWhile Char.isLower
        match rest2 with
        | '_' :: 'v' :: rest3 =>
          if (rest3.takeWhile Char.isDigit).isEmpty then coreScan rest
          else some (digitsToNat ds)
        | _ => coreScan rest
    else coreScan rest

/-- `get_vm_core_count(service_type)`: 0 for falsy or `"Unknown"` inputs,
otherwise the captured core count (0 when the pattern does not match);
`re.search` on a truthy non-string raises `TypeError`. -/
def get_vm_core_count (service_type : FVal) : Except Unit Nat :=
  if !truthy service_type || service_type = .vStr "Unknown" then .ok 0
  else
    match service_type with
    | .vStr s => .ok ((coreScan s.toList).getD 0)
    | _ => .error ()

/-! ### Reservation correlator (`analyze_reservations_fixed`) -/

/-- `consumption_data` as built in `analyze_reservations_fixed`. -/
structure Consumption where
  instance_name : FVal
  cost : FVal
  consumed_quantity : FVal
  service_type : FVal
  reservation_id : FVal
  meter_category : FVal
  charge_type : FVal
  meter_subcategory : FVal
  consumed_service : FVal
  meter_region : FVal
  effective_price : FVal
  payg_price : FVal
deriving DecidableEq, Repr

/-- `visible_reservations[rid] = record` on an insertion-ordered dict:
overwrite in place, or append a new key. -/
def visUpsert : List (String × Props) → String → Props → List (String × Props)
  | [], rid, p => [(rid, p)]
  | (k, q) :: rest, rid, p =>
    if k = rid then (k, p) :: rest else (k, q) :: visUpsert rest rid p

/-- First loop of `analyze_reservations_fixed`: collect visible Purchase
records.  `'reservationOrders' in instance_name` raises `TypeError` when the
stored `instanceName` is a truthy... any non-string (the `.get` default is
`''`). -/
def visibleLoop : List Props → List (String × Props) → Except Unit (List (String × Props))
  | [], acc => .ok acc
  | p :: rest, acc => do
    let s ← asStr (fget p.instanceName (.vStr ""))
    let acc :=
      if strContains s "reservationOrders" && fgetN p.chargeType = .vStr "Purchase" then
        match extract_reservation_id s with
        | some rid => visUpsert acc rid p
        | none => acc
      else acc
    visibleLoop rest acc

/-- `all_consumption[res_id].append(c)` on a `defaultdict(list)`. -/
def consAppend : List (FVal × List Consumption) → FVal → Consumption →
    List (FVal × List Consumption)
  | [], rid, c => [(rid, [c])]
  | (k, l) :: rest, rid, c =>
    if k = rid then (k, l ++ [c]) :: rest else (k, l) :: consAppend rest rid c

/-- `all_reservations_seen.add(res_id)` on an insertion-ordered set model. -/
def seenInsert (seen : List FVal) (rid : FVal) : List FVal :=
  if rid ∈ seen then seen else seen ++ [rid]

/-- Body of the second loop of `analyze_reservations_fixed` for one record:
a truthy `additionalInfo` is parsed; a parse failure (or a failing membership
test) is swallowed by the `except` clause; an object containing
`ReservationOrderId` yields a consumption entry. -/
def consumptionStep (p : Props) (acc : List (FVal × List Consumption) × List FVal) :
    List (FVal × List Consumption) × List FVal :=
  match p.additionalInfo with
  | .absent => acc
  | .invalid => acc
  | .obj kvs =>
    match List.lookup "ReservationOrderId" kvs with
    | none => acc
    | some res_id =>
      let c : Consumption :=
        { instance_name := fget p.instanceName (.vStr "")
          cost := fget p.costInBillingCurrency (.vNum 0)
          consumed_quantity :=
            (List.lookup "ConsumedQuantity" kvs).getD (fget p.quantity (.vNum 0))
          service_type := (List.lookup "ServiceType" kvs).getD (.vStr "")
          reservation_id := (List.lookup "ReservationId" kvs).getD (.vStr "")
          meter_category := fget p.meterCategory (.vStr "")
          charge_type := fget p.chargeType (.vStr "")
          meter_subcategory := fget p.meterSubCategory (.vStr "")
          consumed_service := fget p.consumedService (.vStr "")
          meter_region := fget p.meterRegion (.vStr "")
          effective_price := fget p.effectivePrice (.vNum 0)
          payg_price := fget p.payGPrice (.vNum 0) }
      (consAppend acc.1 res_id c, seenInsert acc.2 res_id)

/-- Second loop of `analyze_reservations_fixed`. -/
def consumptionLoop : List Props → (List (FVal × List Consumption) × List FVal) →
    List (FVal × List Consumption) × List FVal
  | [], acc => acc
  | p :: rest, acc => consumptionLoop rest (consumptionStep p acc)

/-- `analyze_reservations_fixed(usage_data)` →
`(visible_reservations, all_consumption, all_reservations_seen)`. -/
def analyze_reservations_fixed (usage_data : List Props) :
    Except Unit (List (String × Props) × List (FVal × List Consumption) × List FVal) := do
  let visible_reservations ← visibleLoop usage_data []
  let (all_consumption, all_reservations_seen) := consumptionLoop usage_data ([], [])
  .ok (visible_reservations, all_consumption, all_reservations_seen)

/-! ### Utilization analyzer (`analyze_reservation_utilization`) -/

/-- One `resource_usage[vm_name]` bucket. -/
structure ResourceUsage where
  cost : ℚ
  consumed_hours : ℚ
  service_types : List FVal
  cores_used : Nat
deriving DecidableEq, Repr

def ruZero : ResourceUsage := { cost := 0, consumed_hours := 0, service_types := [], cores_used := 0 }

/-- `set.add` on the insertion-ordered set model. -/
def setInsert (l : List FVal) (v : FVal) : List FVal :=
  if v ∈ l then l else l ++ [v]

/-- Loop body of the per-resource aggregation for one consumption record:
`cost += rec['cost']` raises on non-numeric costs; `consumed_quantity` is
added only when it is an `int`/`float` (Python `bool` included);
`get_vm_core_count` may raise on a truthy non-string `service_type`. -/
def ruStep (rec : Consumption) (u : ResourceUsage) : Except Unit ResourceUsage := do
  let cost ← pyAdd u.cost rec.cost
  let consumed_hours :=
    match rec.consumed_quantity with
    | .vNum q => u.consumed_hours + q
    | .vBool b => u.consumed_hours + (if b then 1 else 0)
    | _ => u.consumed_hours
  let service_types :=
    if truthy rec.service_type then setInsert u.service_types rec.service_type
    else u.service_types
  let cores ← get_vm_core_count rec.service_type
  let cores_used := if u.cores_used < cores then cores else u.cores_used
  .ok { cost := cost, consumed_hours := consumed_hours,
        service_types := service_types, cores_used := cores_used }

/-- `resource_usage[vm_name]` update on the `defaultdict` model. -/
def ruUpsert : List (String × ResourceUsage) → String → Consumption →
    Except Unit (List (String × ResourceUsage))
  | [], name, rec => do
    let u ← ruStep rec ruZero
    .ok [(name, u)]
  | (k, u) :: rest, name, rec =>
    if k = name then do
      let u' ← ruStep rec u
      .ok ((k, u') :: rest)
    else do
      let tail ← ruUpsert rest name rec
      .ok ((k, u) :: tail)

/-- `instance_name.split('/')[-1] if '/' in instance_name else instance_name`
(the membership test raises `TypeError` on non-strings). -/
def vmShortName (instance_name : FVal) : Except Unit String := do
  let s ← asStr instance_name
  .ok (if strContains s "/" then String.mk ((splitOnChar '/' s.toList).getLastD []) else s)

/-- The `for rec in consumption_records` aggregation loop. -/
def ruLoop : List Consumption → List (String × ResourceUsage) →
    Except Unit (List (String × ResourceUsage))
  | [], acc => .ok acc
  | rec :: rest, acc => do
    let vm_name ← vmShortName rec.instance_name
    let acc ← ruUpsert acc vm_name rec
    ruLoop rest acc

/-- The hidden-reservation inference loop: running
`(max_cores, reserved_size, reserved_cores)` over the distinct truthy
`service_type` values, updating on strictly greater core counts. -/
def inferLoop : List FVal → (Nat × FVal × Nat) → Except Unit (Nat × FVal × Nat)
  | [], acc => .ok acc
  | stype :: rest, (max_cores, reserved_size, reserved_cores) => do
    let cores ← get_vm_core_count stype
    let acc :=
      if max_cores < cores then (cores, stype, cores)
      else (max_cores, reserved_size, reserved_cores)
    inferLoop rest acc

/-- `{rec['service_type'] for rec in consumption_records if rec['service_type']}`
as an insertion-ordered set (CPython's set iteration order is unspecified;
it only influences which of several equal-core size strings is reported). -/
def serviceTypeSet (consumption_records : List Consumption) : List FVal :=
  consumption_records.foldl
    (fun acc rec => if truthy rec.service_type then setInsert acc rec.service_type else acc) []

/-- `visible_reservations.get(reservation_id)`: the loop variable is a raw
`ReservationOrderId` value while the dict keys are the strings produced by
`extract_reservation_id`. -/
def visGet (vis : List (String × Props)) (rid : FVal) : Option Props :=
  match rid with
  | .vStr s => List.lookup s vis
  | _ => none

/-- Result of `analyze_reservation_utilization` (the source renders
`start_date`/`end_date` into a display string `period`; we keep the pair). -/
structure Analysis where
  reservation_id : FVal
  cost : FVal
  product : FVal
  region : FVal
  subcategory : FVal
  start_date : FVal
  end_date : FVal
  reserved_size : FVal
  reserved_cores : Nat
  resource_usage : List (String × ResourceUsage)
  is_visible : Bool
deriving DecidableEq, Repr

/-- `analyze_reservation_utilization(reservation_id, consumption_records,
visible_reservations)`. -/
def analyze_reservation_utilization (reservation_id : FVal)
    (consumption_records : List Consumption)
    (visible_reservations : List (String × Props)) : Except Unit Analysis := do
  let (cost, product, region, subcategory, start_date, end_date, reserved_size,
      reserved_cores) ←
    match visGet visible_reservations reservation_id with
    | some props => do
      let cost := fget props.costInBillingCurrency (.vNum 0)
      let product := fget props.product (.vStr "Unknown")
      let region := fget props.meterRegion (.vStr "Unknown")
      let subcategory := fget props.meterSubCategory (.vStr "Unknown")
      let start_date := fget props.servicePeriodStartDate (.vStr "Unknown")
      let end_date := fget props.servicePeriodEndDate (.vStr "Unknown")
      let reserved_size ← extract_vm_size product
      let reserved_cores ← get_vm_core_count (.vStr reserved_size)
      (.ok (cost, product, region, subcategory, start_date, end_date,
            FVal.vStr reserved_size, reserved_cores) :
        Except Unit (FVal × FVal × FVal × FVal × FVal × FVal × FVal × Nat))
    | none => do
      let cost := FVal.vStr "Unknown (purchased outside data period)"
      let service_types := serviceTypeSet consumption_records
      let (_, reserved_size, reserved_cores) ←
        if service_types.isEmpty then
          (.ok (0, FVal.vStr "Unknown", 0) : Except Unit (Nat × FVal × Nat))
        else inferLoop service_types (0, .vStr "Unknown", 0)
      (.ok (cost, .vStr "Unknown", .vStr "Unknown", .vStr "Unknown",
            .vStr "Unknown", .vStr "Unknown", reserved_size, reserved_cores) :
        Except Unit (FVal × FVal × FVal × FVal × FVal × FVal × FVal × Nat))
  let resource_usage ← ruLoop consumption_records []
  .ok { reservation_id := reservation_id
        cost := cost
        product := product
        region := region
        subcategory := subcategory
        start_date := start_date
        end_date := end_date
        reserved_size := reserved_size
        reserved_cores := reserved_cores
        resource_usage := resource_usage
        is_visible := (visGet visible_reservations reservation_id).isSome }

/-- Report lines 377–382: `total_cores_used` summed over the per-resource
buckets; the core-utilization percentage is printed only when
`reserved_cores > 0`. -/
def utilization_pct (a : Analysis) : Option ℚ :=
  let total_cores_used : ℚ := (a.resource_usage.map (fun e => (e.2.cores_used : ℚ))).sum
  if 0 < a.reserved_cores then some (total_cores_used / (a.reserved_cores : ℚ) * 100)
  else none

/-! ### VM-centric coverage (`analyze_vm_coverage`) and savings -/

/-- One per-VM coverage bucket (also the shape of the grand totals). -/
@[ext] structure CovB where
  total_hours : ℚ
  reserved_hours : ℚ
  total_cost : ℚ
  reserved_cost : ℚ
  payg_equiv : ℚ
  uncovered_payg_cost : ℚ
  payg_known_hours : ℚ
deriving DecidableEq, Repr

def covZero : CovB :=
  { total_hours := 0, reserved_hours := 0, total_cost := 0, reserved_cost := 0,
    payg_equiv := 0, uncovered_payg_cost := 0, payg_known_hours := 0 }

/-- `(props.get(key) or '').strip().lower()`: falsy values become `''`;
`.strip()` on a truthy non-string raises `AttributeError`. -/
def pyStripLower (v : FVal) : Except Unit String :=
  match pyOr v (.vStr "") with
  | .vStr s => .ok (String.mk ((trimChars s.toList).map Char.toLower))
  | _ => .error ()

/-- The `is_compute` predicate of `analyze_vm_coverage`. -/
def is_compute (p : Props) : Except Unit Bool := do
  let mc ← pyStripLower (fgetN p.meterCategory)
  let cs ← pyStripLower (fgetN p.consumedService)
  let uom ← pyStripLower (fgetN p.unitOfMeasure)
  .ok (mc = "virtual machines" && cs = "microsoft.compute" && strContains uom "hour")

/-- The per-record values computed by the `analyze_vm_coverage` loop body:
VM short name, hours (`ConsumedQuantity` from `additionalInfo` when present,
else the `quantity` field, float-coerced with falsy values read as 0), the
reservation flag, the cost, and the PAYG unit price when it is a positive
number. -/
def covVals (p : Props) : Except Unit (String × ℚ × ℚ × Bool × Option ℚ) := do
  let vm_name ← vmShortName (pyOr (fget p.instanceName (.vStr "")) (.vStr "(unknown)"))
  let info : List (String × FVal) :=
    match p.additionalInfo with
    | .obj kvs => kvs
    | _ => []
  let qty ← pyFloat (pyOr
    ((List.lookup "ConsumedQuantity" info).getD (pyOr (fget p.quantity (.vNum 0)) (.vNum 0)))
    (.vNum 0))
  let has_reservation := (List.lookup "ReservationOrderId" info).isSome
  let cost ← pyFloat (pyOr (fget p.costInBillingCurrency (.vNum 0)) (.vNum 0))
  let unit_payg : Option ℚ :=
    match fgetN p.payGPrice with
    | .vNum q => if 0 < q then some q else none
    | .vBool b => if b then some 1 else none
    | _ => none
  .ok (vm_name, qty, cost, has_reservation, unit_payg)

/-- The bucket updates of the `analyze_vm_coverage` loop body (the source
repeats this block verbatim for the per-VM bucket and the grand totals). -/
def covApply (qty cost : ℚ) (has_reservation : Bool) (unit_payg : Option ℚ)
    (b : CovB) : CovB :=
  let b := { b with total_hours := b.total_hours + qty, total_cost := b.total_cost + cost }
  let b :=
    if has_reservation then
      { b with reserved_hours := b.reserved_hours + qty,
               reserved_cost := b.reserved_cost + cost }
    else b
  match unit_payg with
  | some up =>
    { b with payg_equiv := b.payg_equiv + up * qty,
             payg_known_hours := b.payg_known_hours + qty,
             uncovered_payg_cost :=
               if has_reservation then b.uncovered_payg_cost
               else b.uncovered_payg_cost + up * qty }
  | none => b

/-- `vm[vm_name]` update on the `defaultdict` model. -/
def covUpsert : List (String × CovB) → String → (CovB → CovB) → List (String × CovB)
  | [], name, f => [(name, f covZero)]
  | (k, b) :: rest, name, f =>
    if k = name then (k, f b) :: rest else (k, b) :: covUpsert rest name f

/-- The `for record in usage_data` loop of `analyze_vm_coverage`. -/
def covLoop : List Props → List (String × CovB) → CovB →
    Except Unit (List (String × CovB) × CovB)
  | [], vm, grand => .ok (vm, grand)
  | p :: rest, vm, grand => do
    let c ← is_compute p
    if !c then covLoop rest vm grand
    else do
      let (vm_name, qty, cost, has_reservation, unit_payg) ← covVals p
      covLoop rest (covUpsert vm vm_name (covApply qty cost has_reservation unit_payg))
        (covApply qty cost has_reservation unit_payg grand)

/-- `analyze_vm_coverage(usage_data)` → `(vm, grand)`. -/
def analyze_vm_coverage (usage_data : List Props) :
    Except Unit (List (String × CovB) × CovB) :=
  covLoop usage_data [] covZero

/-- Report lines 492–495: the calculated savings figure, printed only when
`payg_known_hours > 0`, is `max(0.0, payg_equiv - total_cost)`. -/
def calculated_savings (grand : CovB) : Option ℚ :=
  if 0 < grand.payg_known_hours then some (max 0 (grand.payg_equiv - grand.total_cost))
  else none

/-! ### Theorems -/

/-- Both `try/except` blocks of `parse_iso_date` catch every exception, so
the exception-aware model always returns normally, with the value the plain
model computes. -/
theorem parse_iso_date_exc_eq (v : FVal) :
    parse_iso_date_exc v = .ok (parse_iso_date v) := by
  have h : ∃ o, parse_iso_date_exc v = .ok o := by
    unfold parse_iso_date_exc
    split
    · exact ⟨none, rfl⟩
    · split
      · exact ⟨_, rfl⟩
      · split
        · exact ⟨_, rfl⟩
        · exact ⟨none, rfl⟩
  obtain ⟨o, ho⟩ := h
  rw [ho]
  unfold parse_iso_date
  rw [ho]

/-- C10: date resolution is total and exception-free: for every record,
whatever the values of its five date fields, the exception-aware model of
`extract_record_date` returns normally, and its value is the calendar date
(or `none`) computed by the plain model. -/
theorem extract_record_date_total (p : Props) :
    extract_record_date_exc p = .ok (extract_record_date p) := by
  unfold extract_record_date_exc extract_record_date
  simp only [parse_iso_date_exc_eq, bind, Except.bind]
  cases parse_iso_date (fgetN p.date) with
  | some d => rfl
  | none =>
    cases parse_iso_date (fgetN p.usageStart) with
    | some d => rfl
    | none =>
      cases parse_iso_date (fgetN p.servicePeriodStartDate) with
      | some d => rfl
      | none =>
        cases parse_iso_date (fgetN p.usageEnd) with
        | some d => rfl
        | none => rfl

/-- Test fixture: the `date` field holds the `0001-01-01` sentinel string and
`usageStart` holds a genuine date. -/
def sentinelRec : Props := { date := .vStr "0001-01-01", usageStart := .vStr "2025-03-15" }

/-- Scenario F fixture: sentinel in `servicePeriodStartDate`, genuine `date`. -/
def scenarioFRec : Props :=
  { date := .vStr "2025-03-15", servicePeriodStartDate := .vStr "0001-01-01" }

/-- C2 counterexample: `parse_iso_date` has no sentinel handling, so a record
whose `date` field is `"0001-01-01"` resolves to the year-1 date itself — the
resolver does not skip it and move on to `usageStart` (which holds
2025-03-15). -/
theorem resolver_sentinel_cex :
    extract_record_date sentinelRec = some ⟨1, 1, 1⟩ ∧
    extract_record_date sentinelRec ≠ some ⟨2025, 3, 15⟩ := by decide

/-- C2 amended: the resolver returns the first candidate that parses, with no
special treatment of year-0001 dates (they are parsed and returned like any
other date); Scenario F still resolves to 2025-03-15, but only because `date`
precedes `servicePeriodStartDate` in the preference order. -/
theorem resolver_first_parse_wins :
    (∀ (p : Props) (d : PDate), parse_iso_date (fgetN p.date) = some d →
      extract_record_date p = some d) ∧
    extract_record_date scenarioFRec = some ⟨2025, 3, 15⟩ := by
  constructor
  · intro p d h
    unfold extract_record_date
    rw [h]
  · decide

/-- Witness for `resolver_first_parse_wins`: at the sentinel fixture the first
candidate parses to the year-1 date and is returned. -/
theorem resolver_first_parse_wins_witness :
    extract_record_date sentinelRec = some ⟨1, 1, 1⟩ ∧
    extract_record_date scenarioFRec = some ⟨2025, 3, 15⟩ :=
  ⟨resolver_first_parse_wins.1 sentinelRec ⟨1, 1, 1⟩ (by decide),
   resolver_first_parse_wins.2⟩

/-- A record the filter keeps: its date resolves and lies in the window. -/
def keepP (from_date to_date : Option PDate) (p : Props) : Prop :=
  ∃ rd, extract_record_date p = some rd ∧ inWindow from_date to_date rd = true

theorem mem_filterLoop_kept (from_date to_date : Option PDate) :
    ∀ (l : List Props) (p : Props), p ∈ (filterLoop from_date to_date l).1 →
      keepP from_date to_date p := by
  intro l
  induction l with
  | nil => intro p hp; simp [filterLoop] at hp
  | cons q rest ih =>
    intro p hp
    simp only [filterLoop] at hp
    cases h : extract_record_date q with
    | none => simp only [h] at hp; exact ih p hp
    | some rd =>
      simp only [h] at hp
      by_cases hw : inWindow from_date to_date rd = true
      · rw [if_pos hw] at hp
        rcases List.mem_cons.mp hp with rfl | hmem
        · exact ⟨rd, h, hw⟩
        · exact ih p hmem
      · rw [if_neg hw] at hp; exact ih p hp

theorem filterLoop_of_kept (from_date to_date : Option PDate) :
    ∀ l : List Props, (∀ p ∈ l, keepP from_date to_date p) →
      filterLoop from_date to_date l = (l, 0) := by
  intro l
  induction l with
  | nil => intro _; rfl
  | cons q rest ih =>
    intro h
    obtain ⟨rd, hq, hw⟩ := h q (List.mem_cons_self q rest)
    have ht := ih (fun p hp => h p (List.mem_cons_of_mem q hp))
    simp only [filterLoop, ht, hq, hw, if_true]

/-- C8: `filter_usage_by_date` is idempotent — refiltering its kept output
with the same bounds keeps everything and skips nothing — and with both
bounds absent it returns the input unchanged. -/
theorem filter_window_idempotent (l : List Props) (from_date to_date : Option PDate) :
    filter_usage_by_date (filter_usage_by_date l from_date to_date).1 from_date to_date
      = ((filter_usage_by_date l from_date to_date).1, 0) ∧
    filter_usage_by_date l none none = (l, 0) := by
  constructor
  · by_cases hb : (from_date.isNone && to_date.isNone) = true
    · simp [filter_usage_by_date, hb]
    · simp only [filter_usage_by_date, hb, if_false, Bool.false_eq_true]
      exact filterLoop_of_kept from_date to_date _
        (fun p hp => mem_filterLoop_kept from_date to_date l p hp)
  · rfl

theorem mem_keys_consAppend (l : List (FVal × List Consumption)) (rid : FVal)
    (c : Consumption) (x : FVal) :
    x ∈ (consAppend l rid c).map Prod.fst ↔ x ∈ l.map Prod.fst ∨ x = rid := by
  induction l with
  | nil => simp [consAppend]
  | cons e rest ih =>
    by_cases hk : e.1 = rid
    · rcases e with ⟨k, v⟩
      simp only at hk
      subst hk
      simp [consAppend]
      tauto
    · rcases e with ⟨k, v⟩
      simp only at hk
      simp [consAppend, hk, ih]
      tauto

theorem mem_seenInsert (s : List FVal) (rid x : FVal) :
    x ∈ seenInsert s rid ↔ x ∈ s ∨ x = rid := by
  unfold seenInsert
  by_cases h : rid ∈ s
  · simp only [if_pos h]
    constructor
    · exact Or.inl
    · rintro (hx | rfl)
      · exact hx
      · exact h
  · simp [if_neg h]

theorem consumptionStep_inv (p : Props)
    (acc : List (FVal × List Consumption) × List FVal)
    (hinv : ∀ x, x ∈ acc.2 ↔ x ∈ acc.1.map Prod.fst) :
    ∀ x, x ∈ (consumptionStep p acc).2 ↔ x ∈ (consumptionStep p acc).1.map Prod.fst := by
  intro x
  unfold consumptionStep
  split
  · exact hinv x
  · exact hinv x
  · split
    · exact hinv x
    · simp only [mem_seenInsert, mem_keys_consAppend, hinv x]

theorem consumptionLoop_inv :
    ∀ (recs : List Props) (acc : List (FVal × List Consumption) × List FVal),
      (∀ x, x ∈ acc.2 ↔ x ∈ acc.1.map Prod.fst) →
      ∀ x, x ∈ (consumptionLoop recs acc).2 ↔
        x ∈ (consumptionLoop recs acc).1.map Prod.fst := by
  intro recs
  induction recs with
  | nil => intro acc h; exact h
  | cons p rest ih => intro acc h; exact ih _ (consumptionStep_inv p acc h)

/-- C1 amended: the reservation IDs seen are exactly the keys of the
consumption grouping — a reservation ID that only has a visible Purchase
record (and no consumption record) is **not** a member of
`all_reservations_seen`. -/
theorem seen_eq_consumption_keys (recs : List Props)
    (vis : List (String × Props)) (cons : List (FVal × List Consumption))
    (seen : List FVal)
    (h : analyze_reservations_fixed recs = .ok (vis, cons, seen)) :
    ∀ x, x ∈ seen ↔ x ∈ cons.map Prod.fst := by
  unfold analyze_reservations_fixed at h
  cases hv : visibleLoop recs [] with
  | error e => rw [hv] at h; simp [bind, Except.bind] at h
  | ok v =>
    rw [hv] at h
    simp only [bind, Except.bind, Except.ok.injEq, Prod.mk.injEq] at h
    obtain ⟨-, h1, h2⟩ := h
    rw [← h1, ← h2]
    exact consumptionLoop_inv recs ([], []) (by simp)

/-- Test fixture: a reservation Purchase record with no `additionalInfo`. -/
def purchaseOnlyRec : Props :=
  { instanceName := .vStr "subs/x/providers/Microsoft.Capacity/reservationOrders/R1",
    chargeType := .vStr "Purchase",
    costInBillingCurrency := .vNum 100,
    product := .vStr "Standard_D8as_v5 VM Instance" }

/-- C1 counterexample: on a record set holding one visible Purchase record
and no consumption records, `visible_reservations` has key `R1` while
`all_reservations_seen` is empty — so the seen set is not the union of the
two key sets (that union contains `R1`). -/
theorem seen_union_cex :
    (analyze_reservations_fixed [purchaseOnlyRec]).map
      (fun t => (t.1.map Prod.fst, t.2.1.map Prod.fst, t.2.2))
      = .ok (["R1"], [], []) ∧
    "R1" ∈ ["R1"] ∧ FVal.vStr "R1" ∉ ([] : List FVal) := by
  refine ⟨by with_unfolding_all decide, by decide, by decide⟩

/-- Test fixture: one consumption record referencing `R1`, nothing else. -/
def consOnlyRec : Props := { additionalInfo := .obj [("ReservationOrderId", .vStr "R1")] }

/-- The consumption entry `consOnlyRec` produces (all property defaults). -/
def consOnlyEntry : Consumption :=
  { instance_name := .vStr "", cost := .vNum 0, consumed_quantity := .vNum 0,
    service_type := .vStr "", reservation_id := .vStr "", meter_category := .vStr "",
    charge_type := .vStr "", meter_subcategory := .vStr "", consumed_service := .vStr "",
    meter_region := .vStr "", effective_price := .vNum 0, payg_price := .vNum 0 }

/-- Witness for `seen_eq_consumption_keys` at a concrete one-record input. -/
theorem seen_eq_consumption_keys_witness :
    FVal.vStr "R1" ∈ [FVal.vStr "R1"] ↔
      FVal.vStr "R1" ∈ ([(FVal.vStr "R1", [consOnlyEntry])].map Prod.fst) :=
  seen_eq_consumption_keys [consOnlyRec] [] [(.vStr "R1", [consOnlyEntry])]
    [.vStr "R1"] (by with_unfolding_all decide) (.vStr "R1")

/-- C6: a record whose `additionalInfo` is present but not syntactically
valid never raises: the correlator's consumption loop (which parses it under
`try/except`) leaves its accumulators untouched, and in the coverage loop the
record is processed as plain usage — its reservation flag is false and it
contributes nothing to `reserved_hours`/`reserved_cost`. -/
theorem malformed_info_failsoft (p : Props) (h : p.additionalInfo = .invalid) :
    (∀ (recs : List Props) (acc : List (FVal × List Consumption) × List FVal),
        consumptionLoop (p :: recs) acc = consumptionLoop recs acc) ∧
    (∀ (name : String) (qty cost : ℚ) (hasR : Bool) (payg : Option ℚ) (b : CovB),
        covVals p = .ok (name, qty, cost, hasR, payg) →
        hasR = false ∧
        (covApply qty cost hasR payg b).reserved_hours = b.reserved_hours ∧
        (covApply qty cost hasR payg b).reserved_cost = b.reserved_cost) := by
  constructor
  · intro recs acc
    simp only [consumptionLoop, consumptionStep, h]
  · intro name qty cost hasR payg b heq
    unfold covVals at heq
    rw [h] at heq
    simp only [bind, Except.bind] at heq
    split at heq
    · exact absurd heq (by simp)
    · split at heq
      · exact absurd heq (by simp)
      · split at heq
        · exact absurd heq (by simp)
        · simp only [Except.ok.injEq, Prod.mk.injEq] at heq
          obtain ⟨-, -, -, hR, -⟩ := heq
          simp at hR
          subst hR
          refine ⟨rfl, ?_, ?_⟩ <;> cases payg <;> simp [covApply]

/-- Test fixture: a compute-hour record with malformed `additionalInfo`. -/
def malformedInfoRec : Props :=
  { additionalInfo := .invalid, meterCategory := .vStr "Virtual Machines",
    consumedService := .vStr "Microsoft.Compute", unitOfMeasure := .vStr "1 Hour",
    instanceName := .vStr "a/vmM", quantity := .vNum 2, payGPrice := .vNum 1,
    costInBillingCurrency := .vNum 7 }

/-- Witness for `malformed_info_failsoft` at a concrete record. -/
theorem malformed_info_failsoft_witness :
    consumptionLoop [malformedInfoRec] ([], []) = consumptionLoop [] ([], []) ∧
    (covApply 2 7 false (some 1) covZero).reserved_hours = covZero.reserved_hours ∧
    (covApply 2 7 false (some 1) covZero).reserved_cost = covZero.reserved_cost :=
  ⟨(malformed_info_failsoft malformedInfoRec rfl).1 [] ([], []),
   ((malformed_info_failsoft malformedInfoRec rfl).2 "vmM" 2 7 false (some 1) covZero
      (by with_unfolding_all decide)).2⟩

/-- C7: whenever the utilization analyzer reports `reserved_cores = 0` (for
example for a hidden reservation with no core-matching service type), the
report never computes a utilization percentage — it is omitted instead of
dividing by zero. -/
theorem util_pct_none_of_zero_cores (rid : FVal) (recs : List Consumption)
    (vis : List (String × Props)) (a : Analysis)
    (_h : analyze_reservation_utilization rid recs vis = .ok a)
    (hz : a.reserved_cores = 0) : utilization_pct a = none := by
  simp [utilization_pct, hz]

/-- The analysis produced for a hidden reservation with no consumption. -/
def hiddenEmptyAnalysis : Analysis :=
  { reservation_id := .vStr "R9", cost := .vStr "Unknown (purchased outside data period)",
    product := .vStr "Unknown", region := .vStr "Unknown", subcategory := .vStr "Unknown",
    start_date := .vStr "Unknown", end_date := .vStr "Unknown",
    reserved_size := .vStr "Unknown", reserved_cores := 0, resource_usage := [],
    is_visible := false }

/-- Witness for `util_pct_none_of_zero_cores` at a concrete analysis. -/
theorem util_pct_none_of_zero_cores_witness :
    utilization_pct hiddenEmptyAnalysis = none :=
  util_pct_none_of_zero_cores (.vStr "R9") [] [] hiddenEmptyAnalysis
    (by with_unfolding_all decide) rfl

/-- The report's per-reservation flow (lines 352–354): the consumption
records for a reservation ID are `all_consumption[reservation_id]` (a
`defaultdict`, so absent keys read as `[]`), passed to the utilization
analyzer together with the visible reservations. -/
def utilizationPipeline (recs : List Props) (rid : FVal) : Except Unit Analysis :=
  (analyze_reservations_fixed recs).bind fun t =>
    analyze_reservation_utilization rid ((List.lookup rid t.2.1).getD []) t.1

/-- Projection used by the Scenario B claims: the `vm1` aggregate's
`(consumed_hours, cores_used)` and the reservation's utilization
percentage. -/
def vm1Summary (a : Analysis) : Option (ℚ × Nat) × Option ℚ :=
  ((List.lookup "vm1" a.resource_usage).map (fun u => (u.consumed_hours, u.cores_used)),
   utilization_pct a)

/-- Scenario B fixture: `ConsumedQuantity` is the JSON **string** `"730"`. -/
def scenarioBStrRec : Props :=
  { instanceName := .vStr "subs/x/virtualMachines/vm1",
    additionalInfo := .obj [("ReservationOrderId", .vStr "R1"),
      ("ServiceType", .vStr "Standard_D8as_v5"), ("ConsumedQuantity", .vStr "730")],
    costInBillingCurrency := .vNum 50 }

/-- Scenario B fixture with `ConsumedQuantity` as the JSON **number** 730. -/
def scenarioBNumRec : Props :=
  { instanceName := .vStr "subs/x/virtualMachines/vm1",
    additionalInfo := .obj [("ReservationOrderId", .vStr "R1"),
      ("ServiceType", .vStr "Standard_D8as_v5"), ("ConsumedQuantity", .vNum 730)],
    costInBillingCurrency := .vNum 50 }

/-- C3 counterexample: with `ConsumedQuantity` given as the string `"730"`,
the per-resource aggregation only sums `int`/`float` quantities, so `vm1`
gets `consumed_hours = 0`, not 730 (while `cores_used = 8` and the 100%
utilization do hold). -/
theorem scenarioB_string_cex :
    (utilizationPipeline [scenarioBStrRec] (.vStr "R1")).map vm1Summary
      = .ok (some (0, 8), some 100) ∧ (0 : ℚ) ≠ 730 := by
  refine ⟨by with_unfolding_all decide, by norm_num⟩

set_option maxRecDepth 16384 in
/-- C3 amended: the consumption record yields `cores_used = 8` and 100%
utilization as claimed, but `consumed_hours` is 730 only when
`ConsumedQuantity` is a JSON number; the string `"730"` is skipped by the
`isinstance` guard and leaves `consumed_hours = 0`. -/
theorem scenarioB_amended :
    (utilizationPipeline [scenarioBNumRec] (.vStr "R1")).map vm1Summary
      = .ok (some (730, 8), some 100) ∧
    (utilizationPipeline [scenarioBStrRec] (.vStr "R1")).map vm1Summary
      = .ok (some (0, 8), some 100) := by
  refine ⟨by with_unfolding_all decide, by with_unfolding_all decide⟩

/-- Test fixture: compute-hour record whose `quantity` field is 5 but whose
`additionalInfo` carries `ConsumedQuantity = 10`. -/
def cqOverridesRec : Props :=
  { meterCategory := .vStr "Virtual Machines", consumedService := .vStr "Microsoft.Compute",
    unitOfMeasure := .vStr "1 Hour", instanceName := .vStr "a/vmX",
    quantity := .vNum 5, costInBillingCurrency := .vNum 3,
    additionalInfo := .obj [("ConsumedQuantity", .vNum 10)] }

/-- C4 counterexample: on a qualifying record with `quantity = 5` and
`ConsumedQuantity = 10`, the coverage totals gain 10 hours — the hours
increment comes from `additionalInfo`'s `ConsumedQuantity`, not from the
record's `quantity` field. -/
theorem coverage_hours_cex :
    (analyze_vm_coverage [cqOverridesRec]).map (fun t => (t.2.total_hours, t.2.total_cost))
      = .ok (10, 3) ∧
    cqOverridesRec.quantity = .vNum 5 ∧ (10 : ℚ) ≠ 5 := by
  refine ⟨by with_unfolding_all decide, by with_unfolding_all decide, by norm_num⟩

/-- C4 amended: for a qualifying record whose `additionalInfo` carries a
truthy `ConsumedQuantity` that float-coerces to `q`, the loop increments
`total_hours` by `q` — regardless of the `quantity` field — while
`total_cost` is always incremented by the record's (float-coerced) cost. -/
theorem coverage_hours_amended (p : Props) (kvs : List (String × FVal)) (v : FVal)
    (q : ℚ) (name : String) (qty cost : ℚ) (hasR : Bool) (payg : Option ℚ) (b : CovB)
    (hobj : p.additionalInfo = .obj kvs)
    (hcq : List.lookup "ConsumedQuantity" kvs = some v)
    (htr : truthy v = true)
    (hq : pyFloat v = .ok q)
    (hvals : covVals p = .ok (name, qty, cost, hasR, payg)) :
    qty = q ∧
    (covApply qty cost hasR payg b).total_hours = b.total_hours + q ∧
    (covApply qty cost hasR payg b).total_cost = b.total_cost + cost := by
  unfold covVals at hvals
  rw [hobj] at hvals
  simp only [hcq, Option.getD_some, pyOr, htr, if_true, hq, bind, Except.bind] at hvals
  split at hvals
  · exact absurd hvals (by simp)
  · split at hvals
    · exact absurd hvals (by simp)
    · simp only [Except.ok.injEq, Prod.mk.injEq] at hvals
      obtain ⟨-, hqty, -, -, -⟩ := hvals
      subst hqty
      refine ⟨rfl, ?_, ?_⟩ <;> cases hasR <;> cases payg <;> simp [covApply]

/-- Witness for `coverage_hours_amended` at the concrete fixture. -/
theorem coverage_hours_amended_witness :
    (10 : ℚ) = 10 ∧
    (covApply 10 3 false none covZero).total_hours = covZero.total_hours + 10 ∧
    (covApply 10 3 false none covZero).total_cost = covZero.total_cost + 3 :=
  coverage_hours_amended cqOverridesRec [("ConsumedQuantity", .vNum 10)] (.vNum 10)
    10 "vmX" 10 3 false none covZero rfl (by with_unfolding_all decide)
    (by with_unfolding_all decide) (by with_unfolding_all decide)
    (by with_unfolding_all decide)

/-- Test fixture: a qualifying compute record with a positive `payGPrice`
but zero quantity. -/
def paygZeroQtyRec : Props :=
  { meterCategory := .vStr "Virtual Machines", consumedService := .vStr "Microsoft.Compute",
    unitOfMeasure := .vStr "1 Hour", instanceName := .vStr "a/vmY",
    quantity := .vNum 0, costInBillingCurrency := .vNum 0, payGPrice := .vNum (1/5) }

/-- C5 counterexample: this input has a compute record with a positive
`payGPrice`, yet the report computes no savings figure at all
(`payg_known_hours` stays 0 because the record's quantity is 0), so the
aggregate savings does not equal `max(0, paygEquivalentCost - actualCost)` —
it is simply absent. -/
theorem savings_gate_cex :
    is_compute paygZeroQtyRec = .ok true ∧
    fgetN paygZeroQtyRec.payGPrice = .vNum (1/5) ∧ (0 : ℚ) < 1/5 ∧
    (analyze_vm_coverage [paygZeroQtyRec]).map (fun t => calculated_savings t.2)
      = .ok none := by
  refine ⟨by with_unfolding_all decide, by with_unfolding_all decide, by norm_num,
    by with_unfolding_all decide⟩

/-- C5 amended: whenever the grand totals report positive
`payg_known_hours` (PAYG pricing was known for a positive balance of hours),
the savings figure is exactly `max(0, payg_equiv - total_cost)` and is never
negative. -/
theorem savings_clamped (recs : List Props) (vms : List (String × CovB)) (grand : CovB)
    (_h : analyze_vm_coverage recs = .ok (vms, grand))
    (hpos : 0 < grand.payg_known_hours) :
    calculated_savings grand = some (max 0 (grand.payg_equiv - grand.total_cost)) ∧
    (0 : ℚ) ≤ max 0 (grand.payg_equiv - grand.total_cost) := by
  exact ⟨by simp [calculated_savings, hpos], le_max_left 0 _⟩

/-- Test fixture: a qualifying compute record with known PAYG pricing and
two billed hours. -/
def paygKnownRec : Props :=
  { meterCategory := .vStr "Virtual Machines", consumedService := .vStr "Microsoft.Compute",
    unitOfMeasure := .vStr "1 Hour", instanceName := .vStr "a/vmY",
    quantity := .vNum 2, costInBillingCurrency := .vNum 10, payGPrice := .vNum (1/5) }

/-- The grand totals `analyze_vm_coverage` produces for `[paygKnownRec]`. -/
def paygKnownGrand : CovB :=
  { total_hours := 2, reserved_hours := 0, total_cost := 10, reserved_cost := 0,
    payg_equiv := 2/5, uncovered_payg_cost := 2/5, payg_known_hours := 2 }

/-- Witness for `savings_clamped` at a concrete input (the raw difference is
negative, so the clamp yields zero savings). -/
theorem savings_clamped_witness :
    calculated_savings paygKnownGrand
      = some (max 0 (paygKnownGrand.payg_equiv - paygKnownGrand.total_cost)) ∧
    (0 : ℚ) ≤ max 0 (paygKnownGrand.payg_equiv - paygKnownGrand.total_cost) :=
  savings_clamped [paygKnownRec] [("vmY", paygKnownGrand)] paygKnownGrand
    (by with_unfolding_all decide) (by norm_num [paygKnownGrand])

/-- Field-wise sum of coverage buckets. -/
def covAdd (a b : CovB) : CovB :=
  { total_hours := a.total_hours + b.total_hours
    reserved_hours := a.reserved_hours + b.reserved_hours
    total_cost := a.total_cost + b.total_cost
    reserved_cost := a.reserved_cost + b.reserved_cost
    payg_equiv := a.payg_equiv + b.payg_equiv
    uncovered_payg_cost := a.uncovered_payg_cost + b.uncovered_payg_cost
    payg_known_hours := a.payg_known_hours + b.payg_known_hours }

/-- Field-wise sum over all per-VM buckets. -/
def covSum : List (String × CovB) → CovB
  | [] => covZero
  | e :: rest => covAdd e.2 (covSum rest)

theorem covAdd_zero_left (b : CovB) : covAdd covZero b = b := by
  ext <;> simp [covAdd, covZero]

theorem covAdd_zero_right (b : CovB) : covAdd b covZero = b := by
  ext <;> simp [covAdd, covZero]

theorem covAdd_assoc (a b c : CovB) : covAdd (covAdd a b) c = covAdd a (covAdd b c) := by
  ext <;> simp [covAdd, add_assoc]

theorem covAdd_right_comm (a b c : CovB) :
    covAdd (covAdd a b) c = covAdd (covAdd a c) b := by
  ext <;> simp [covAdd] <;> ring

/-- Each loop-body update adds a record-determined delta to whichever bucket
it is applied to. -/
theorem covApply_eq_add (qty cost : ℚ) (hasR : Bool) (payg : Option ℚ) (b : CovB) :
    covApply qty cost hasR payg b = covAdd b (covApply qty cost hasR payg covZero) := by
  cases hasR <;> cases payg <;> ext <;> simp [covApply, covAdd, covZero]

theorem covSum_upsert (l : List (String × CovB)) (name : String) (f : CovB → CovB)
    (hf : ∀ b, f b = covAdd b (f covZero)) :
    covSum (covUpsert l name f) = covAdd (covSum l) (f covZero) := by
  induction l with
  | nil => simp [covUpsert, covSum, covAdd_zero_left, covAdd_zero_right]
  | cons e rest ih =>
    rcases e with ⟨k, b⟩
    by_cases hk : k = name
    · simp only [covUpsert, if_pos hk, covSum]
      rw [hf b]
      exact covAdd_right_comm b (f covZero) (covSum rest)
    · simp only [covUpsert, if_neg hk, covSum, ih]
      exact (covAdd_assoc b (covSum rest) (f covZero)).symm

theorem covLoop_inv :
    ∀ (recs : List Props) (vms : List (String × CovB)) (grand : CovB)
      (out : List (String × CovB) × CovB),
      covLoop recs vms grand = .ok out → covSum vms = grand → covSum out.1 = out.2 := by
  intro recs
  induction recs with
  | nil =>
    intro vms grand out h hinv
    simp only [covLoop, Except.ok.injEq] at h
    rw [← h]
    exact hinv
  | cons p rest ih =>
    intro vms grand out h hinv
    unfold covLoop at h
    simp only [bind, Except.bind] at h
    split at h
    · exact absurd h (by simp)
    · split at h
      · exact ih vms grand out h hinv
      · split at h
        · exact absurd h (by simp)
        · rename_i c hc vals hv
          obtain ⟨n, q, co, hr, pg⟩ := vals
          refine ih _ _ out h ?_
          rw [covSum_upsert _ _ _ (fun b => covApply_eq_add q co hr pg b), hinv]
          exact (covApply_eq_add q co hr pg grand).symm

/-- The field-wise reading of `covSum`. -/
theorem covSum_fields (l : List (String × CovB)) :
    (covSum l).total_hours = (l.map (fun e => e.2.total_hours)).sum ∧
    (covSum l).reserved_hours = (l.map (fun e => e.2.reserved_hours)).sum ∧
    (covSum l).total_cost = (l.map (fun e => e.2.total_cost)).sum ∧
    (covSum l).reserved_cost = (l.map (fun e => e.2.reserved_cost)).sum ∧
    (covSum l).payg_equiv = (l.map (fun e => e.2.payg_equiv)).sum ∧
    (covSum l).uncovered_payg_cost = (l.map (fun e => e.2.uncovered_payg_cost)).sum ∧
    (covSum l).payg_known_hours = (l.map (fun e => e.2.payg_known_hours)).sum := by
  induction l with
  | nil => simp [covSum, covZero]
  | cons e rest ih =>
    obtain ⟨h1, h2, h3, h4, h5, h6, h7⟩ := ih
    simp [covSum, covAdd, h1, h2, h3, h4, h5, h6, h7]

/-- C9: the grand aggregate returned by the VM coverage computation equals
the field-wise sum over all per-VM buckets, for each of the seven
accumulated fields. -/
theorem coverage_grand_eq_sum (recs : List Props) (vms : List (String × CovB))
    (grand : CovB) (h : analyze_vm_coverage recs = .ok (vms, grand)) :
    (vms.map (fun e => e.2.total_hours)).sum = grand.total_hours ∧
    (vms.map (fun e => e.2.reserved_hours)).sum = grand.reserved_hours ∧
    (vms.map (fun e => e.2.total_cost)).sum = grand.total_cost ∧
    (vms.map (fun e => e.2.reserved_cost)).sum = grand.reserved_cost ∧
    (vms.map (fun e => e.2.payg_equiv)).sum = grand.payg_equiv ∧
    (vms.map (fun e => e.2.uncovered_payg_cost)).sum = grand.uncovered_payg_cost ∧
    (vms.map (fun e => e.2.payg_known_hours)).sum = grand.payg_known_hours := by
  have hs : covSum vms = grand :=
    covLoop_inv recs [] covZero (vms, grand) h rfl
  obtain ⟨h1, h2, h3, h4, h5, h6, h7⟩ := covSum_fields vms
  rw [hs] at h1 h2 h3 h4 h5 h6 h7
  exact ⟨h1.symm, h2.symm, h3.symm, h4.symm, h5.symm, h6.symm, h7.symm⟩

/-- The per-VM buckets `analyze_vm_coverage` produces for the three-record
witness input. -/
def covWitnessVms : List (String × CovB) :=
  [("vmX", { total_hours := 20, reserved_hours := 0, total_cost := 6, reserved_cost := 0,
             payg_equiv := 0, uncovered_payg_cost := 0, payg_known_hours := 0 }),
   ("vmY", { total_hours := 2, reserved_hours := 0, total_cost := 10, reserved_cost := 0,
             payg_equiv := 2/5, uncovered_payg_cost := 2/5, payg_known_hours := 2 })]

/-- The grand totals for the same witness input. -/
def covWitnessGrand : CovB :=
  { total_hours := 22, reserved_hours := 0, total_cost := 16, reserved_cost := 0,
    payg_equiv := 2/5, uncovered_payg_cost := 2/5, payg_known_hours := 2 }

/-- Witness for `coverage_grand_eq_sum` at a concrete three-record input
covering two VMs. -/
theorem coverage_grand_eq_sum_witness :
    (covWitnessVms.map (fun e => e.2.total_hours)).sum = covWitnessGrand.total_hours ∧
    (covWitnessVms.map (fun e => e.2.reserved_hours)).sum = covWitnessGrand.reserved_hours ∧
    (covWitnessVms.map (fun e => e.2.total_cost)).sum = covWitnessGrand.total_cost ∧
    (covWitnessVms.map (fun e => e.2.reserved_cost)).sum = covWitnessGrand.reserved_cost ∧
    (covWitnessVms.map (fun e => e.2.payg_equiv)).sum = covWitnessGrand.payg_equiv ∧
    (covWitnessVms.map (fun e => e.2.uncovered_payg_cost)).sum
      = covWitnessGrand.uncovered_payg_cost ∧
    (covWitnessVms.map (fun e => e.2.payg_known_hours)).sum
      = covWitnessGrand.payg_known_hours :=
  coverage_grand_eq_sum [cqOverridesRec, paygKnownRec, cqOverridesRec]
    covWitnessVms covWitnessGrand (by with_unfolding_all decide)
